import Mathlib

/-!
Verification of `froide_crowdfunding/forms.py`.

The module is embedded shallowly: Python strings become `List Char`,
`Decimal` values become `ℚ`, Python exceptions become an explicit
`PyError` value in an `Except` result, and database persistence becomes
explicit record lists threaded through the save functions.
-/

/-- Python strings are modelled as lists of characters. -/
abbrev PyStr := List Char

/-- Convert a Lean string literal to the `PyStr` model. -/
def pystr (s : String) : PyStr := s.toList

/-- The character class `\d` of the regex (ASCII digits). -/
def py_isdigit (c : Char) : Bool := '0' ≤ c && c ≤ '9'

/-- The character class `\s` of the regex and of `str.strip`:
space, tab, newline, carriage return, vertical tab, form feed. -/
def py_isspace (c : Char) : Bool :=
  c = ' ' || c = '\t' || c = '\n' || c = '\r' ||
    c = Char.ofNat 11 || c = Char.ofNat 12

/-- Exceptions the embedded code can raise. -/
inductive PyError where
  | attributeError
  | indexError
  | orderCreationFailed
  deriving DecidableEq, Repr

instance (ε α : Type) [DecidableEq ε] [DecidableEq α] :
    DecidableEq (Except ε α) := fun a b =>
  match a, b with
  | .error e, .error e2 =>
    if h : e = e2 then .isTrue (by rw [h]) else .isFalse (by simp [h])
  | .ok v, .ok v2 =>
    if h : v = v2 then .isTrue (by rw [h]) else .isFalse (by simp [h])
  | .error _, .ok _ => .isFalse (by simp)
  | .ok _, .error _ => .isFalse (by simp)

/-- A match of the pattern `(\d{5})\s+(.*)` at the very start of `l`:
`\d{5}` takes exactly five digits, `\s+` greedily takes a non-empty
maximal whitespace run, `(.*)` takes the rest of the line (everything up
to the next newline or the end).  Returns `(group0, group1, group2)`. -/
def matchHere (l : PyStr) : Option (PyStr × PyStr × PyStr) :=
  let digits := l.take 5
  if digits.length = 5 && digits.all py_isdigit then
    let rest := l.drop 5
    let ws := rest.takeWhile py_isspace
    if ws.isEmpty then
      none
    else
      let city := (rest.dropWhile py_isspace).takeWhile (fun c => c ≠ '\n')
      some (digits ++ ws ++ city, digits, city)
  else
    none

/-- `re.search` for `POSTCODE_RE`: try the pattern at every position,
left to right, and return the first (leftmost) match. -/
def re_search : PyStr → Option (PyStr × PyStr × PyStr)
  | [] => none
  | c :: rest =>
    match matchHere (c :: rest) with
    | some m => some m
    | none => re_search rest

/-- Does `l` start with `pat`? -/
def startsWith : PyStr → PyStr → Bool
  | _, [] => true
  | [], _ :: _ => false
  | c :: cs, d :: ds => c = d && startsWith cs ds

/-- Fuel-driven worker for `removeAll`. -/
def removeAllAux (old : PyStr) : Nat → PyStr → PyStr
  | 0, _ => []
  | _ + 1, [] => []
  | fuel + 1, c :: rest =>
    if !old.isEmpty && startsWith (c :: rest) old then
      removeAllAux old fuel ((c :: rest).drop old.length)
    else
      c :: removeAllAux old fuel rest

/-- Python `s.replace(old, '')`: delete every (non-overlapping, leftmost
first) occurrence of `old` in `s`. -/
def removeAll (s old : PyStr) : PyStr := removeAllAux old (s.length + 1) s

/-- Python `str.strip()`: drop leading and trailing whitespace. -/
def pyStrip (s : PyStr) : PyStr :=
  ((s.dropWhile py_isspace).reverse.dropWhile py_isspace).reverse

/-- Worker for `py_splitlines`; `acc` holds the current line reversed. -/
def splitlinesAux (acc : PyStr) : PyStr → List PyStr
  | [] => if acc.isEmpty then [] else [acc.reverse]
  | '\r' :: '\n' :: rest => acc.reverse :: splitlinesAux [] rest
  | '\r' :: rest => acc.reverse :: splitlinesAux [] rest
  | '\n' :: rest => acc.reverse :: splitlinesAux [] rest
  | c :: rest => splitlinesAux (c :: acc) rest

/-- Python `str.splitlines()` over the line breaks used by this module
(`\n`, `\r`, `\r\n`): split into lines, without a trailing empty line
for a trailing line break, and `[]` for the empty string. -/
def py_splitlines (s : PyStr) : List PyStr := splitlinesAux [] s

/-- Python `'\n'.join(lines)`. -/
def joinNl : List PyStr → PyStr
  | [] => []
  | [x] => x
  | x :: y :: rest => x ++ '\n' :: joinNl (y :: rest)

/-- Result of `parse_address`: either the empty dict or the dict with
the keys `address`, `postcode`, `city`. -/
inductive ParsedAddress where
  | empty
  | fields (address postcode city : PyStr)
  deriving DecidableEq, Repr

/-- `parse_address` from `forms.py`: search for `POSTCODE_RE`; with no
match return the empty dict; otherwise take the postcode and city from
the match groups, delete every occurrence of the whole match from the
input, strip, split into lines and take the first line as the street
address.  `refined[0]` raises `IndexError` when no line remains. -/
def parse_address (address : PyStr) : Except PyError ParsedAddress :=
  match re_search address with
  | none => .ok .empty
  | some (g0, postcode, city) =>
    match py_splitlines (pyStrip (removeAll address g0)) with
    | [] => .error .indexError
    | line :: _ => .ok (.fields line postcode city)

/-- `can_start_crowdfunding` needs only each campaign's status; this is
the summary the form receives as `crowdfundings`. -/
structure CampaignSummary where
  kind : PyStr
  status : PyStr
  deriving DecidableEq, Repr

/-- `can_start_crowdfunding` from `forms.py`: `False` as soon as any
existing campaign has a status other than `'finished'`. -/
def can_start_crowdfunding (crowdfundings : List CampaignSummary) : Bool :=
  if crowdfundings.any (fun c => c.status ≠ pystr "finished") then
    false
  else
    true

/-- `calculate_amount_needed` from `forms.py`: multiply by the overhead
factor, then round up to the next multiple of 10.  `OVERHEAD_FACTOR`
lives in `models.py`, outside the sources at hand; it is passed as a
parameter here (the spec only constrains it to be greater than 1). -/
def calculate_amount_needed (overhead_factor amount_requested : ℚ) : ℚ :=
  ((⌈amount_requested * overhead_factor / 10⌉ : ℤ) * 10 : ℚ)

/-- The profile fields of a user, as the identity collaborator exposes
them. -/
structure User where
  email : PyStr
  first_name : PyStr
  last_name : PyStr
  address : PyStr
  deriving DecidableEq, Repr

/-- The fields of a freedom-of-information request that the form reads:
its title and its recorded cost estimate (`Decimal` or `None`). -/
structure FoiRequest where
  title : PyStr
  costs : Option ℚ
  deriving DecidableEq, Repr

/-- One entry of `Crowdfunding.KIND_CHOICES`: a kind value and its
label.  The concrete list lives in `models.py`, outside the sources at
hand, so it is passed as a parameter wherever it is used. -/
abbrev KindChoice := PyStr × PyStr

/-- A persisted crowdfunding campaign with the fields this module
writes. -/
structure Crowdfunding where
  title : PyStr
  kind : PyStr
  description : PyStr
  public_interest : PyStr
  amount_requested : ℚ
  amount_needed : ℚ
  user : Option User
  request : Option FoiRequest
  deriving DecidableEq, Repr

/-- The state of a `CrowdfundingRequestStartForm` after `__init__`:
the initial values and choice lists that `__init__` may set.  Before
`__init__` runs, `title` has no initial value, `amount_requested` has
the field initial 10, and the `kind` choice field has no choices. -/
structure StartFormState where
  title_initial : Option PyStr
  amount_requested_initial : ℚ
  kind_choices : List KindChoice
  deriving DecidableEq, Repr

/-- `CrowdfundingRequestStartForm.__init__` from `forms.py`.  The
`foirequest` and `crowdfundings` keyword arguments default to `None`.
Line by line: when `foirequest` is present its title becomes the title
initial; then `self.foirequest.costs` is read unconditionally, which
raises `AttributeError` when `foirequest` is `None`; a truthy cost
(present and nonzero) becomes the amount initial; when `crowdfundings`
is present, the kind choices become the `KIND_CHOICES` entries whose
kind is used by none of the given campaigns. -/
def CrowdfundingRequestStartForm.init (kind_choice_list : List KindChoice)
    (foirequest : Option FoiRequest)
    (crowdfundings : Option (List CampaignSummary)) :
    Except PyError StartFormState :=
  let s0 : StartFormState := ⟨none, 10, []⟩
  let s1 :=
    match foirequest with
    | some fr => { s0 with title_initial := some fr.title }
    | none => s0
  match foirequest with
  | none => .error .attributeError
  | some fr =>
    let s2 :=
      match fr.costs with
      | some cost =>
        if cost ≠ 0 then { s1 with amount_requested_initial := cost } else s1
      | none => s1
    let s3 :=
      match crowdfundings with
      | some cfs =>
        let existing_kinds := cfs.map CampaignSummary.kind
        { s2 with kind_choices :=
            kind_choice_list.filter (fun c => !existing_kinds.contains c.1) }
      | none => s2
    .ok s3

/-- The kind choices offered after a successful initialization with the
request and the campaign collection present. -/
def offered_kinds (kind_choice_list : List KindChoice) (foirequest : FoiRequest)
    (crowdfundings : List CampaignSummary) : List KindChoice :=
  match CrowdfundingRequestStartForm.init kind_choice_list
      (some foirequest) (some crowdfundings) with
  | .ok s => s.kind_choices
  | .error _ => []

/-- The single form-level error this module raises. -/
inductive FormError where
  | ongoingCrowdfunding
  deriving DecidableEq, Repr

/-- The cleaned field data of a campaign-start submission. -/
structure StartFormData where
  title : PyStr
  kind : PyStr
  description : PyStr
  public_interest : PyStr
  amount_requested : ℚ
  deriving DecidableEq, Repr

/-- `CrowdfundingRequestStartForm.clean` from `forms.py`: raise a
`ValidationError` unless `can_start_crowdfunding` holds, otherwise pass
the cleaned data through. -/
def CrowdfundingRequestStartForm.clean (crowdfundings : List CampaignSummary)
    (data : StartFormData) : Except FormError StartFormData :=
  if can_start_crowdfunding crowdfundings then .ok data
  else .error .ongoingCrowdfunding

/-- `CrowdfundingRequestStartForm.save` from `forms.py`: build the
campaign from the cleaned fields, attach the user and the request, set
`amount_needed` via `calculate_amount_needed`, and hand the object to
`save_obj_with_slug` (persistence itself is the collaborator's job; the
returned record is what gets persisted). -/
def CrowdfundingRequestStartForm.save (overhead_factor : ℚ) (user : Option User)
    (foirequest : FoiRequest) (data : StartFormData) : Crowdfunding :=
  { title := data.title
    kind := data.kind
    description := data.description
    public_interest := data.public_interest
    amount_requested := data.amount_requested
    amount_needed := calculate_amount_needed overhead_factor data.amount_requested
    user := user
    request := some foirequest }

/-- One campaign-start submission after field validation: `clean` then,
on success, `save`. -/
def start_campaign (overhead_factor : ℚ) (user : Option User)
    (foirequest : FoiRequest) (crowdfundings : List CampaignSummary)
    (data : StartFormData) : Except FormError Crowdfunding :=
  match CrowdfundingRequestStartForm.clean crowdfundings data with
  | .error e => .error e
  | .ok cleaned =>
    .ok (CrowdfundingRequestStartForm.save overhead_factor user foirequest cleaned)

/-- The campaign records persisted by one campaign-start submission:
one record on success, none when validation raises. -/
def start_campaign_persisted (overhead_factor : ℚ) (user : Option User)
    (foirequest : FoiRequest) (crowdfundings : List CampaignSummary)
    (data : StartFormData) : List Crowdfunding :=
  match start_campaign overhead_factor user foirequest crowdfundings data with
  | .ok c => [c]
  | .error _ => []

/-- The cleaned field data of a contribution submission. -/
structure ContributionData where
  amount : ℚ
  note : PyStr
  first_name : PyStr
  last_name : PyStr
  public : Bool
  address : PyStr
  postcode : PyStr
  city : PyStr
  country : PyStr
  email : PyStr
  deriving DecidableEq, Repr

/-- A payment order with the fields `ContributionForm.save` writes. -/
structure Order where
  user : Option User
  first_name : PyStr
  last_name : PyStr
  street_address_1 : PyStr
  street_address_2 : PyStr
  city : PyStr
  postcode : PyStr
  country : PyStr
  user_email : PyStr
  total_net : ℚ
  total_gross : ℚ
  is_donation : Bool
  kind : PyStr
  description : PyStr
  deriving DecidableEq, Repr

/-- A persisted contribution referencing its campaign and its order. -/
structure Contribution where
  crowdfunding : Crowdfunding
  user : Option User
  amount : ℚ
  note : PyStr
  public : Bool
  order : Order
  deriving DecidableEq, Repr

/-- The records in the persistence store that this module touches. -/
structure DBState where
  orders : List Order
  contributions : List Contribution
  deriving DecidableEq, Repr

/-- `ContributionForm.save` from `forms.py`.  The submitted address is
split into lines; `address_lines[0]` raises `IndexError` on an empty
address.  `Order.objects.create` is the payment collaborator's call and
may fail, which the parameter `order_creation_ok` models: on failure the
exception propagates before the `Contribution.objects.create` line runs,
leaving the store unchanged.  On success the order row and then the
contribution row referencing it are appended to the store. -/
def ContributionForm.save (order_creation_ok : Bool) (user : Option User)
    (crowdfunding : Crowdfunding) (d : ContributionData) (db : DBState) :
    Except PyError Contribution × DBState :=
  match py_splitlines d.address with
  | [] => (.error .indexError, db)
  | line1 :: rest_lines =>
    let order : Order :=
      { user := user
        first_name := d.first_name
        last_name := d.last_name
        street_address_1 := line1
        street_address_2 := joinNl rest_lines
        city := d.city
        postcode := d.postcode
        country := d.country
        user_email := d.email
        total_net := d.amount
        total_gross := d.amount
        is_donation := true
        kind := pystr "froide_crowdfunding.Contribution"
        description :=
          pystr "Contribution to Crowdfunding “" ++ crowdfunding.title ++
            pystr "”" }
    if order_creation_ok then
      let contribution : Contribution :=
        { crowdfunding := crowdfunding
          user := user
          amount := d.amount
          note := d.note
          public := d.public
          order := order }
      (.ok contribution,
        ⟨db.orders ++ [order], db.contributions ++ [contribution]⟩)
    else
      (.error .orderCreationFailed, db)

/-- The kind choices the spec says initialization offers: it claims the
excluded kinds are exactly those used by a non-finished campaign. -/
def spec_offered_kinds (kind_choice_list : List KindChoice)
    (crowdfundings : List CampaignSummary) : List KindChoice :=
  let active_kinds :=
    (crowdfundings.filter (fun c => c.status ≠ pystr "finished")).map
      CampaignSummary.kind
  kind_choice_list.filter (fun c => !active_kinds.contains c.1)

/-- The regex pattern occurs at the very start of `l`: five consecutive
digits followed by a whitespace character (the `(.*)` tail matches any
remainder, the empty one included). -/
def patternAt (l : PyStr) : Prop :=
  ∃ ds c post, l = ds ++ c :: post ∧ ds.length = 5 ∧
    (∀ d ∈ ds, py_isdigit d) ∧ py_isspace c

/-- The input contains an occurrence of five consecutive digits followed
by whitespace (and then the rest of the line as trailing text). -/
def hasPostcodePattern (s : PyStr) : Prop := ∃ i, patternAt (s.drop i)

lemma matchHere_eq_none_iff (l : PyStr) : matchHere l = none ↔ ¬ patternAt l := by
  constructor
  · intro hnone hpat
    obtain ⟨ds, c, post, hl, hlen, hdig, hws⟩ := hpat
    have htake : l.take 5 = ds := by
      rw [hl, ← hlen, List.take_left]
    have hdrop : l.drop 5 = c :: post := by
      rw [hl, ← hlen, List.drop_left]
    unfold matchHere at hnone
    rw [htake, hdrop] at hnone
    have hall : ds.all py_isdigit = true := List.all_eq_true.mpr hdig
    simp only [hlen, hall, List.takeWhile] at hnone
    simp [hws] at hnone
  · intro hpat
    cases hm : matchHere l with
    | none => rfl
    | some m =>
      exfalso
      apply hpat
      unfold matchHere at hm
      by_cases h5 : (l.take 5).length = 5 ∧ (l.take 5).all py_isdigit
      · rw [if_pos (by simp [h5.1, h5.2])] at hm
        cases hdrop : l.drop 5 with
        | nil =>
          rw [hdrop] at hm
          simp [List.takeWhile] at hm
        | cons c post =>
          rw [hdrop] at hm
          by_cases hws : py_isspace c
          · exact ⟨l.take 5, c, post, by rw [← hdrop, List.take_append_drop],
              h5.1, List.all_eq_true.mp h5.2, hws⟩
          · simp [List.takeWhile, hws] at hm
      · rw [if_neg (by simpa using h5)] at hm
        exact absurd hm (by simp)

lemma re_search_eq_none_iff (s : PyStr) :
    re_search s = none ↔ ¬ hasPostcodePattern s := by
  induction s with
  | nil =>
    simp only [re_search, true_iff]
    rintro ⟨i, ds, c, post, h, -⟩
    rw [List.drop_nil] at h
    exact absurd h.symm (List.append_ne_nil_of_right_ne_nil ds (by simp))
  | cons a rest ih =>
    have hstep : hasPostcodePattern (a :: rest) ↔
        patternAt (a :: rest) ∨ hasPostcodePattern rest := by
      constructor
      · rintro ⟨i, hi⟩
        cases i with
        | zero => exact Or.inl (by simpa using hi)
        | succ j => exact Or.inr ⟨j, by simpa [List.drop_succ_cons] using hi⟩
      · rintro (h | ⟨j, hj⟩)
        · exact ⟨0, by simpa using h⟩
        · exact ⟨j + 1, by simpa [List.drop_succ_cons] using hj⟩
    rw [hstep]
    unfold re_search
    cases hm : matchHere (a :: rest) with
    | some m =>
      have hp : patternAt (a :: rest) := by
        by_contra hnp
        have hn := (matchHere_eq_none_iff (a :: rest)).mpr hnp
        rw [hn] at hm
        exact Option.noConfusion hm
      constructor
      · intro h; simp at h
      · intro h; exact absurd (Or.inl hp) h
    | none =>
      have hnp : ¬ patternAt (a :: rest) := (matchHere_eq_none_iff _).mp hm
      simp only [ih, not_or, iff_true_intro hnp, true_and]

lemma splitlinesAux_ne_nil_of_acc (s : PyStr) :
    ∀ acc : PyStr, acc ≠ [] → splitlinesAux acc s ≠ [] := by
  induction s with
  | nil =>
    intro acc hacc
    simp only [splitlinesAux]
    rw [if_neg (by simpa using hacc)]
    simp
  | cons c rest ih =>
    intro acc hacc
    rw [splitlinesAux.eq_def]
    split
    · rw [if_neg (by simpa using hacc)]
      simp
    · simp
    · simp
    · simp
    · rename_i heq
      injection heq with h1 h2
      subst h1
      subst h2
      exact ih _ (List.cons_ne_nil _ _)

/-- A concrete request used by the witnesses. -/
def sampleRequest : FoiRequest := ⟨pystr "Contract documents", none⟩

/-- A concrete non-finished campaign summary. -/
def runningCampaign : CampaignSummary := ⟨pystr "court", pystr "running"⟩

/-- A concrete finished campaign summary. -/
def finishedCampaign : CampaignSummary := ⟨pystr "court", pystr "finished"⟩

/-- Concrete cleaned campaign-start data. -/
def sampleStartData : StartFormData :=
  ⟨pystr "My campaign", pystr "court", pystr "why", pystr "public interest", 50⟩

/-- Concrete cleaned contribution data with a two-line address. -/
def sampleContribution : ContributionData :=
  ⟨25, pystr "good luck", pystr "Ada", pystr "Lovelace", true,
    pystr "Main St 5\nApt 2", pystr "10115", pystr "Berlin", pystr "DE",
    pystr "ada@example.org"⟩

/-- A concrete campaign receiving contributions in the witnesses. -/
def sampleCrowdfunding : Crowdfunding :=
  ⟨pystr "Save the docs", pystr "court", pystr "d", pystr "p", 50, 60, none, none⟩

/-- An empty persistence store. -/
def emptyDB : DBState := ⟨[], []⟩

lemma py_splitlines_ne_nil (s : PyStr) (h : s ≠ []) : py_splitlines s ≠ [] := by
  cases s with
  | nil => exact absurd rfl h
  | cons c rest =>
    unfold py_splitlines
    rw [splitlinesAux.eq_def]
    split
    · rename_i heq
      exact absurd heq (List.cons_ne_nil _ _)
    · simp
    · simp
    · simp
    · rename_i heq
      injection heq with h1 h2
      subst h1
      subst h2
      exact splitlinesAux_ne_nil_of_acc _ _ (List.cons_ne_nil _ _)

/-- C1: with any overhead factor greater than 1, `calculate_amount_needed`
applied to a non-negative amount returns an exact multiple of 10 that is
at least the requested amount and at least the overhead-adjusted
amount. -/
theorem calculate_amount_needed_target_bounds (overhead_factor x : ℚ)
    (hx : 0 ≤ x) (hf : 1 < overhead_factor) :
    (∃ k : ℤ, calculate_amount_needed overhead_factor x = 10 * k) ∧
    x ≤ calculate_amount_needed overhead_factor x ∧
    x * overhead_factor ≤ calculate_amount_needed overhead_factor x := by
  have hceil : x * overhead_factor / 10 ≤ (⌈x * overhead_factor / 10⌉ : ℚ) :=
    Int.le_ceil _
  have h10 : x * overhead_factor ≤ (⌈x * overhead_factor / 10⌉ : ℚ) * 10 := by
    have hd := (div_le_iff₀ (by norm_num : (0:ℚ) < 10)).mp hceil
    linarith
  have hxf : x ≤ x * overhead_factor := by nlinarith
  refine ⟨⟨⌈x * overhead_factor / 10⌉, ?_⟩, ?_, ?_⟩
  · unfold calculate_amount_needed
    ring
  · unfold calculate_amount_needed
    linarith
  · unfold calculate_amount_needed
    linarith

/-- Witness for C1 at overhead factor 6/5 and amount 10. -/
theorem calculate_amount_needed_target_bounds_witness :
    (0:ℚ) ≤ 10 ∧ (1:ℚ) < 6/5 ∧
    ((∃ k : ℤ, calculate_amount_needed (6/5) 10 = 10 * k) ∧
      (10:ℚ) ≤ calculate_amount_needed (6/5) 10 ∧
      (10:ℚ) * (6/5) ≤ calculate_amount_needed (6/5) 10) :=
  ⟨by norm_num, by norm_num,
    calculate_amount_needed_target_bounds (6/5) 10 (by norm_num) (by norm_num)⟩

/-- C2: contrary to the claim that `parse_address` always returns a
value, it raises `IndexError` on an address consisting only of the
postcode-city line: deleting the matched text leaves nothing, and
`refined[0]` fails. -/
theorem parse_address_raises_on_bare_postcode :
    parse_address (pystr "12345 Springfield") = .error .indexError := by
  decide

/-- C8: `parse_address` on a street line followed by a postcode-city
line recovers the street address, the postcode and the city. -/
theorem parse_address_two_line_example :
    parse_address (pystr "Main Street 1\n12345 Springfield") =
      .ok (.fields (pystr "Main Street 1") (pystr "12345")
        (pystr "Springfield")) := by
  decide

/-- C3 counterexample: with one configured kind and one existing
campaign of that kind that is already finished, initialization offers no
kinds at all, while the spec description of the offered set keeps the
kind of the finished campaign on offer. -/
theorem offered_kinds_excludes_finished_kind :
    offered_kinds [(pystr "court", pystr "Court costs")] sampleRequest
        [finishedCampaign] = [] ∧
      spec_offered_kinds [(pystr "court", pystr "Court costs")]
        [finishedCampaign] = [(pystr "court", pystr "Court costs")] := by
  decide

/-- C3 (amended): a choice is offered after initialization exactly when
it is a configured kind choice and its kind is used by none of the
request's existing campaigns — finished campaigns excluded as well. -/
theorem offered_kinds_mem_iff (kind_choice_list : List KindChoice)
    (foirequest : FoiRequest) (crowdfundings : List CampaignSummary)
    (c : KindChoice) :
    c ∈ offered_kinds kind_choice_list foirequest crowdfundings ↔
      c ∈ kind_choice_list ∧ ∀ cf ∈ crowdfundings, cf.kind ≠ c.1 := by
  have hval : offered_kinds kind_choice_list foirequest crowdfundings =
      kind_choice_list.filter
        (fun c => !(crowdfundings.map CampaignSummary.kind).contains c.1) := by
    unfold offered_kinds CrowdfundingRequestStartForm.init
    cases hc : foirequest.costs with
    | none => simp
    | some cost => by_cases h0 : cost = 0 <;> simp [h0]
  rw [hval, List.mem_filter]
  simp only [List.contains, Bool.not_eq_true', List.elem_eq_mem,
    decide_eq_false_iff_not, List.mem_map, not_exists]
  constructor
  · rintro ⟨hmem, hnot⟩
    exact ⟨hmem, fun cf hcf hk => hnot cf ⟨hcf, hk⟩⟩
  · rintro ⟨hmem, hall⟩
    exact ⟨hmem, fun cf ⟨hcf, hk⟩ => hall cf hcf hk⟩

/-- C4: a campaign-start submission with any existing non-finished
campaign on the request is rejected with the single ongoing-crowdfunding
form error and persists no campaign record. -/
theorem start_campaign_rejects_ongoing (overhead_factor : ℚ)
    (user : Option User) (foirequest : FoiRequest)
    (crowdfundings : List CampaignSummary) (data : StartFormData)
    (h : ∃ c ∈ crowdfundings, c.status ≠ pystr "finished") :
    start_campaign overhead_factor user foirequest crowdfundings data =
        .error .ongoingCrowdfunding ∧
      start_campaign_persisted overhead_factor user foirequest crowdfundings
        data = [] := by
  have hany : crowdfundings.any
      (fun c => decide (c.status ≠ pystr "finished")) = true := by
    rw [List.any_eq_true]
    obtain ⟨c, hc, hs⟩ := h
    exact ⟨c, hc, by simpa using hs⟩
  have hcan : can_start_crowdfunding crowdfundings = false := by
    unfold can_start_crowdfunding
    rw [if_pos hany]
  have hrun : start_campaign overhead_factor user foirequest crowdfundings
      data = .error .ongoingCrowdfunding := by
    unfold start_campaign CrowdfundingRequestStartForm.clean
    rw [hcan]
    simp
  refine ⟨hrun, ?_⟩
  unfold start_campaign_persisted
  rw [hrun]

/-- Witness for C4: one existing running campaign blocks the
submission. -/
theorem start_campaign_rejects_ongoing_witness :
    (∃ c ∈ [runningCampaign], c.status ≠ pystr "finished") ∧
      (start_campaign 1 none sampleRequest [runningCampaign]
          sampleStartData = .error .ongoingCrowdfunding ∧
        start_campaign_persisted 1 none sampleRequest [runningCampaign]
          sampleStartData = []) :=
  ⟨⟨runningCampaign, by simp, by decide⟩,
    start_campaign_rejects_ongoing 1 none sampleRequest [runningCampaign]
      sampleStartData ⟨runningCampaign, by simp, by decide⟩⟩

/-- C6: when the business rule passes, the submission persists exactly
one campaign, whose `amount_needed` is `calculate_amount_needed` of the
validated requested amount, with the owning user and the originating
request attached. -/
theorem start_campaign_persists_with_target (overhead_factor : ℚ)
    (user : Option User) (foirequest : FoiRequest)
    (crowdfundings : List CampaignSummary) (data : StartFormData)
    (h : can_start_crowdfunding crowdfundings = true) :
    ∃ c, start_campaign overhead_factor user foirequest crowdfundings data =
        .ok c ∧
      start_campaign_persisted overhead_factor user foirequest crowdfundings
        data = [c] ∧
      c.amount_needed =
        calculate_amount_needed overhead_factor data.amount_requested ∧
      c.amount_requested = data.amount_requested ∧
      c.user = user ∧ c.request = some foirequest := by
  have hrun : start_campaign overhead_factor user foirequest crowdfundings
      data = .ok (CrowdfundingRequestStartForm.save overhead_factor user
        foirequest data) := by
    unfold start_campaign CrowdfundingRequestStartForm.clean
    rw [h]
    simp
  refine ⟨CrowdfundingRequestStartForm.save overhead_factor user foirequest
    data, hrun, ?_, rfl, rfl, rfl, rfl⟩
  unfold start_campaign_persisted
  rw [hrun]

/-- Witness for C6: with the only existing campaign finished, the
submission persists one campaign with the computed target. -/
theorem start_campaign_persists_with_target_witness :
    can_start_crowdfunding [finishedCampaign] = true ∧
      ∃ c, start_campaign (6/5) none sampleRequest [finishedCampaign]
          sampleStartData = .ok c ∧
        start_campaign_persisted (6/5) none sampleRequest [finishedCampaign]
          sampleStartData = [c] ∧
        c.amount_needed =
          calculate_amount_needed (6/5) sampleStartData.amount_requested ∧
        c.amount_requested = sampleStartData.amount_requested ∧
        c.user = none ∧ c.request = some sampleRequest :=
  ⟨by decide,
    start_campaign_persists_with_target (6/5) none sampleRequest
      [finishedCampaign] sampleStartData (by decide)⟩

/-- C10: constructing the campaign-start form without a request raises
`AttributeError` — line 118 reads the request's cost estimate
unconditionally — so no initialization with an absent request ever
produces a form state. -/
theorem start_form_init_requires_foirequest
    (kind_choice_list : List KindChoice)
    (crowdfundings : Option (List CampaignSummary)) :
    CrowdfundingRequestStartForm.init kind_choice_list none crowdfundings =
      .error .attributeError := by
  rfl

/-- C5: with a non-empty validated address, a successful order creation
appends exactly one order and then exactly one contribution referencing
that order; a failed order creation leaves the store unchanged and
returns no contribution. -/
theorem contribution_save_order_invariant (user : Option User)
    (crowdfunding : Crowdfunding) (d : ContributionData) (db : DBState)
    (h : d.address ≠ []) :
    (∃ o c, ContributionForm.save true user crowdfunding d db =
        (.ok c, ⟨db.orders ++ [o], db.contributions ++ [c]⟩) ∧
      c.order = o) ∧
    ((ContributionForm.save false user crowdfunding d db).2 = db ∧
      ∀ c, (ContributionForm.save false user crowdfunding d db).1 ≠ .ok c) := by
  have hsp := py_splitlines_ne_nil d.address h
  cases hsplit : py_splitlines d.address with
  | nil => exact absurd hsplit hsp
  | cons l1 ls =>
    unfold ContributionForm.save
    rw [hsplit]
    refine ⟨⟨_, _, rfl, rfl⟩, rfl, ?_⟩
    intro c hc
    exact Except.noConfusion hc

/-- Witness for C5 at a concrete submission against an empty store. -/
theorem contribution_save_order_invariant_witness :
    sampleContribution.address ≠ [] ∧
      ((∃ o c, ContributionForm.save true none sampleCrowdfunding
            sampleContribution emptyDB =
          (.ok c, ⟨emptyDB.orders ++ [o], emptyDB.contributions ++ [c]⟩) ∧
        c.order = o) ∧
      ((ContributionForm.save false none sampleCrowdfunding sampleContribution
          emptyDB).2 = emptyDB ∧
        ∀ c, (ContributionForm.save false none sampleCrowdfunding
          sampleContribution emptyDB).1 ≠ .ok c)) :=
  ⟨by decide, contribution_save_order_invariant none sampleCrowdfunding
    sampleContribution emptyDB (by decide)⟩

/-- C9: the order created for a contribution carries the amount as both
net and gross total, the donation flag, the first submitted address line
as primary address line, and the remaining lines rejoined with newlines
as secondary line — the empty string when only one line was given. -/
theorem contribution_order_fields (user : Option User)
    (crowdfunding : Crowdfunding) (d : ContributionData) (db : DBState)
    (l1 : PyStr) (ls : List PyStr)
    (h : py_splitlines d.address = l1 :: ls) :
    ∃ o c, ContributionForm.save true user crowdfunding d db =
        (.ok c, ⟨db.orders ++ [o], db.contributions ++ [c]⟩) ∧
      o.total_net = d.amount ∧ o.total_gross = d.amount ∧
      o.is_donation = true ∧
      o.street_address_1 = l1 ∧ o.street_address_2 = joinNl ls ∧
      (ls = [] → o.street_address_2 = []) := by
  unfold ContributionForm.save
  rw [h]
  refine ⟨_, _, rfl, rfl, rfl, rfl, rfl, rfl, ?_⟩
  rintro rfl
  rfl

/-- Witness for C9 at a concrete two-line address. -/
theorem contribution_order_fields_witness :
    py_splitlines sampleContribution.address =
        pystr "Main St 5" :: [pystr "Apt 2"] ∧
      ∃ o c, ContributionForm.save true none sampleCrowdfunding
          sampleContribution emptyDB =
        (.ok c, ⟨emptyDB.orders ++ [o], emptyDB.contributions ++ [c]⟩) ∧
        o.total_net = sampleContribution.amount ∧
        o.total_gross = sampleContribution.amount ∧
        o.is_donation = true ∧
        o.street_address_1 = pystr "Main St 5" ∧
        o.street_address_2 = joinNl [pystr "Apt 2"] ∧
        ([pystr "Apt 2"] = [] → o.street_address_2 = []) :=
  ⟨by decide, contribution_order_fields none sampleCrowdfunding
    sampleContribution emptyDB (pystr "Main St 5") [pystr "Apt 2"]
    (by decide)⟩

lemma parse_address_of_search_some (s g0 pc city : PyStr)
    (hs : re_search s = some (g0, pc, city)) :
    parse_address s =
      match py_splitlines (pyStrip (removeAll s g0)) with
      | [] => .error .indexError
      | line :: _ => .ok (.fields line pc city) := by
  unfold parse_address
  rw [hs]

/-- C7: `parse_address` returns the empty dict exactly when the input
has no occurrence of five consecutive digits followed by whitespace (and
then the rest of the line as trailing text); in particular a four-digit
group does not match and yields the empty dict. -/
theorem parse_address_empty_iff_no_pattern :
    (∀ s, parse_address s = .ok .empty ↔ ¬ hasPostcodePattern s) ∧
      parse_address (pystr "1234 too short") = .ok .empty := by
  constructor
  · intro s
    constructor
    · intro h
      rw [← re_search_eq_none_iff]
      cases hsearch : re_search s with
      | none => rfl
      | some m =>
        exfalso
        obtain ⟨g0, pc, city⟩ := m
        rw [parse_address_of_search_some s g0 pc city hsearch] at h
        cases hsplit : py_splitlines (pyStrip (removeAll s g0)) with
        | nil =>
          rw [hsplit] at h
          exact Except.noConfusion h
        | cons a t =>
          rw [hsplit] at h
          simp at h
    · intro hnp
      have hs : re_search s = none := (re_search_eq_none_iff s).mpr hnp
      unfold parse_address
      rw [hs]
  · decide
